import Mathlib

/-!
Verification of the 2PC/3PC lab (coordinator + participant).

Shallow embedding of `src/participant.py` and `src/coordinator.py`.
Python dicts are modelled as association lists with dict-update semantics
(update in place when the key is present, append otherwise); HTTP request
handlers become pure functions from node state and request to new node
state, the list of WAL records appended during the request, and the JSON
response.  Wall-clock timestamps (`ts` fields, diagnostics only) and
console printing are not modelled.
-/

namespace Lab4

/-- Python `str.upper()`, modelled character-wise over the string's
characters. -/
def pyUpper (s : String) : String := ⟨s.data.map Char.toUpper⟩

/-- Python `str.strip()` over a character list: remove leading and
trailing whitespace. -/
def stripChars (l : List Char) : List Char :=
  ((l.dropWhile Char.isWhitespace).reverse.dropWhile
      Char.isWhitespace).reverse

/-- Python `str.strip()`: remove leading and trailing whitespace. -/
def pyStrip (s : String) : String := ⟨stripChars s.data⟩

/-- A transaction operation payload: `{"type": ..., "key": ..., "value": ...}`.
Missing fields in the Python dict default to `""` (via `op.get(..., "")`),
which is how an absent field is represented here. -/
structure Op where
  type : String
  key : String
  value : String
deriving DecidableEq, Repr

/-- Association-list lookup, mirroring Python `d.get(k)`. -/
def dictGet {α : Type} : List (String × α) → String → Option α
  | [], _ => none
  | (k, v) :: rest, key => if k = key then some v else dictGet rest key

/-- Association-list update, mirroring Python `d[k] = v`: replace the
binding in place when the key is present (keys are unique in a dict, so
replacing the first occurrence is exact), append at the end otherwise. -/
def dictSet {α : Type} : List (String × α) → String → α → List (String × α)
  | [], key, v => [(key, v)]
  | (k, w) :: rest, key, v =>
      if k = key then (key, v) :: rest else (k, w) :: dictSet rest key v

namespace Participant

/-- Participant per-transaction states (the `state` strings of the source). -/
inductive PState
  | READY
  | ABORTED
  | COMMITTED
  | PRECOMMIT
deriving DecidableEq, Repr

/-- A participant transaction record: `{"state": ..., "op": ...}` (the
wall-clock `ts` field is diagnostics only and not modelled). -/
structure PRec where
  state : PState
  op : Op
deriving DecidableEq, Repr

/-- Participant node state: the key-value store `kv` and the transaction
table `TX`. -/
structure PNode where
  kv : List (String × String)
  tx : List (String × PRec)
deriving DecidableEq, Repr

/-- `validate_op` from participant.py: type must be `SET` (case-insensitive
via `.upper()`) and the key non-empty after `.strip()`. -/
def validate_op (op : Op) : Bool :=
  if pyUpper op.type ≠ "SET" then false
  else if pyStrip op.key = "" then false
  else true

/-- `apply_op` from participant.py: for a `SET` op, `kv[key] = value`;
any other type is a no-op. -/
def apply_op (kv : List (String × String)) (op : Op) :
    List (String × String) :=
  if pyUpper op.type = "SET" then dictSet kv op.key op.value else kv

/-- One participant WAL record, the structured content of one WAL line as
written by the handlers and parsed back by `wal_replay`
(`split(maxsplit=2)`; for PREPARE/CAN_COMMIT the third field splits again
into the vote and the JSON-encoded op). -/
inductive WalRec
  | prepare (txid vote : String) (op : Op)
  | can_commit (txid vote : String) (op : Op)
  | commit (txid : String)
  | abort (txid : String)
  | precommit (txid : String)
deriving DecidableEq, Repr

/-- Participant JSON responses: a vote reply (`/prepare`, `/can_commit`),
a success reply carrying the new state (`/commit`, `/abort`, `/precommit`),
or an error with its HTTP status and message string. -/
inductive PResp
  | vote (v : String) (st : PState)
  | done (txid : String) (st : PState)
  | err (status : Nat) (msg : String)
deriving DecidableEq, Repr

/-- Result of handling one participant HTTP request: new node state, WAL
records appended during the request, and the response. -/
structure HResult where
  node : PNode
  wal : List WalRec
  resp : PResp
deriving DecidableEq, Repr

/-- `POST /prepare` from participant.py: strip the txid, reject an empty
one, vote by `validate_op`, unconditionally overwrite `TX[txid]`, WAL-log
the vote and op, reply with the vote. -/
def handle_prepare (s : PNode) (rawTxid : String) (op : Op) : HResult :=
  let txid := pyStrip rawTxid
  if txid = "" then ⟨s, [], .err 400 "txid and op required"⟩
  else
    let v := if validate_op op then "YES" else "NO"
    let st := if v = "YES" then PState.READY else PState.ABORTED
    ⟨{ s with tx := dictSet s.tx txid ⟨st, op⟩ },
     [.prepare txid v op], .vote v st⟩

/-- `POST /can_commit` from participant.py: identical to `/prepare` except
for the WAL record tag. -/
def handle_can_commit (s : PNode) (rawTxid : String) (op : Op) : HResult :=
  let txid := pyStrip rawTxid
  if txid = "" then ⟨s, [], .err 400 "txid and op required"⟩
  else
    let v := if validate_op op then "YES" else "NO"
    let st := if v = "YES" then PState.READY else PState.ABORTED
    ⟨{ s with tx := dictSet s.tx txid ⟨st, op⟩ },
     [.can_commit txid v op], .vote v st⟩

/-- `POST /commit` from participant.py: requires an existing record in
state READY or PRECOMMIT; applies the op to the store and moves the record
to COMMITTED; otherwise 409 and no mutation. -/
def handle_commit (s : PNode) (rawTxid : String) : HResult :=
  let txid := pyStrip rawTxid
  if txid = "" then ⟨s, [], .err 400 "txid required"⟩
  else
    match dictGet s.tx txid with
    | some rec =>
        if rec.state = PState.READY ∨ rec.state = PState.PRECOMMIT then
          ⟨{ kv := apply_op s.kv rec.op,
             tx := dictSet s.tx txid { rec with state := .COMMITTED } },
           [.commit txid], .done txid .COMMITTED⟩
        else ⟨s, [], .err 409 "commit requires READY/PRECOMMIT"⟩
    | none => ⟨s, [], .err 409 "commit requires READY/PRECOMMIT"⟩

/-- `POST /abort` from participant.py: requires the record to exist (else
409 "no such tx"); moves it to ABORTED regardless of its current state. -/
def handle_abort (s : PNode) (rawTxid : String) : HResult :=
  let txid := pyStrip rawTxid
  if txid = "" then ⟨s, [], .err 400 "txid required"⟩
  else
    match dictGet s.tx txid with
    | some rec =>
        ⟨{ s with tx := dictSet s.tx txid { rec with state := .ABORTED } },
         [.abort txid], .done txid .ABORTED⟩
    | none => ⟨s, [], .err 409 "no such tx"⟩

/-- `POST /precommit` from participant.py: requires an existing record in
state READY; moves it to PRECOMMIT; otherwise 409 and no mutation. -/
def handle_precommit (s : PNode) (rawTxid : String) : HResult :=
  let txid := pyStrip rawTxid
  if txid = "" then ⟨s, [], .err 400 "txid required"⟩
  else
    match dictGet s.tx txid with
    | some rec =>
        if rec.state = PState.READY then
          ⟨{ s with tx := dictSet s.tx txid { rec with state := .PRECOMMIT } },
           [.precommit txid], .done txid .PRECOMMIT⟩
        else ⟨s, [], .err 409 "precommit requires READY state"⟩
    | none => ⟨s, [], .err 409 "precommit requires READY state"⟩

/-- One inbound participant request (the five POST endpoints). -/
inductive Req
  | prepare (txid : String) (op : Op)
  | can_commit (txid : String) (op : Op)
  | commit (txid : String)
  | abort (txid : String)
  | precommit (txid : String)
deriving DecidableEq, Repr

/-- The raw txid field of a request. -/
def Req.txid : Req → String
  | .prepare t _ => t
  | .can_commit t _ => t
  | .commit t => t
  | .abort t => t
  | .precommit t => t

/-- One step of `wal_replay` from participant.py: the effect of replaying
a single WAL record on the node state. -/
def replay_rec (s : PNode) : WalRec → PNode
  | .prepare txid v op =>
      { s with tx := (dictSet s.tx txid
          (PRec.mk (if v = "YES" then .READY else .ABORTED) op)) }
  | .can_commit txid v op =>
      { s with tx := (dictSet s.tx txid
          (PRec.mk (if v = "YES" then .READY else .ABORTED) op)) }
  | .commit txid =>
      match dictGet s.tx txid with
      | some rec =>
          if rec.state = PState.READY ∨ rec.state = PState.PRECOMMIT then
            { kv := apply_op s.kv rec.op,
              tx := dictSet s.tx txid { rec with state := .COMMITTED } }
          else s
      | none => s
  | .abort txid =>
      match dictGet s.tx txid with
      | some rec =>
          { s with tx := dictSet s.tx txid { rec with state := .ABORTED } }
      | none => s
  | .precommit txid =>
      match dictGet s.tx txid with
      | some rec =>
          if rec.state = PState.READY then
            { s with tx := dictSet s.tx txid { rec with state := .PRECOMMIT } }
          else s
      | none => s

/-- `wal_replay` from participant.py: fold every WAL record in append
order over the (initially empty) node state. -/
def wal_replay (ws : List WalRec) (s : PNode) : PNode :=
  ws.foldl replay_rec s

/-- The fresh-process participant state: empty store, empty table. -/
def initNode : PNode := ⟨[], []⟩

end Participant

namespace Coordinator

/-- One coordinator WAL line, structured: the four `wal_append` call sites
of coordinator.py (`f"{txid} {decision}"` in `two_pc`;
`f"{txid} START_3PC {json}"`, `f"{txid} ABORT after CanCommit"` and
`f"{txid} {decision} after PreCommit"` in `three_pc`). -/
inductive CWal
  | decision (txid d : String)
  | start3pc (txid : String) (op : Op)
  | abortAfterCanCommit (txid : String)
  | decisionAfterPreCommit (txid d : String)
deriving DecidableEq, Repr

/-- `line.strip().split(maxsplit=2)` of `wal_replay` in coordinator.py,
restricted to its first two tokens `(txid, decision)` — the only parts the
replay loop reads.  Every structured line has at least two tokens, so the
`len(parts) < 2` skip never fires on these. -/
def cwalParse : CWal → String × String
  | .decision txid d => (txid, d)
  | .start3pc txid _ => (txid, "START_3PC")
  | .abortAfterCanCommit txid => (txid, "ABORT")
  | .decisionAfterPreCommit txid d => (txid, d)

/-- A coordinator transaction record.  The single structure carries the
fields of both the 2PC and the 3PC record shapes (`votes` for 2PC,
`votes_can_commit`/`precommit_ok` for 3PC; the ones the other protocol
does not set stay empty).  The wall-clock `ts` field is not modelled. -/
structure CRec where
  protocol : String
  state : String
  op : Op
  votes : List (String × String)
  votes_can_commit : List (String × String)
  precommit_ok : List (String × String)
  decision : Option String
  participants : List String
deriving DecidableEq, Repr

/-- The externally visible effects of a coordinator protocol run, in
program order: `time.sleep`, `wal_append`, and `propagate_decision`. -/
inductive CEvent
  | sleep (secs : Nat)
  | wal_append (w : CWal)
  | propagate (txid d : String)
deriving DecidableEq, Repr

/-- The vote the coordinator extracts from one participant reply:
`str(resp.get("vote", "NO")).upper()`.  `none` models a reply without a
`"vote"` field — in particular the `(500, {"error": ...})` dict that
`post_json` returns on any transport failure or timeout. -/
def voteOf (resp : Option String) : String := pyUpper (resp.getD "NO")

/-- The `time.sleep(15)` in `two_pc`, executed unconditionally between
computing the decision and appending it to the WAL. -/
def two_pc_sleep_secs : Nat := 15

/-- Result of one coordinator protocol run: the final transaction record,
the decision returned to the client, and the effect trace. -/
structure CResult where
  record : CRec
  decision : String
  events : List CEvent
deriving DecidableEq, Repr

/-- `two_pc` from coordinator.py.  `participants` is the `PARTICIPANTS`
list; `reply p` is the `"vote"` field of participant `p`'s `/prepare`
response (`none` when absent, e.g. on transport failure).  The run
collects one vote per participant, decides `COMMIT` iff all votes are
`YES`, sleeps 15 s, records votes/decision/state, WAL-logs the decision
and propagates it. -/
def two_pc (txid : String) (op : Op) (participants : List String)
    (reply : String → Option String) : CResult :=
  let votes := participants.map (fun p => (p, voteOf (reply p)))
  let all_yes := votes.all (fun pv => pv.2 = "YES")
  let decision := if all_yes then "COMMIT" else "ABORT"
  { record :=
      { protocol := "2PC", state := decision ++ "_SENT", op := op,
        votes := votes, votes_can_commit := [], precommit_ok := [],
        decision := some decision, participants := participants },
    decision := decision,
    events :=
      [.sleep two_pc_sleep_secs, .wal_append (.decision txid decision),
       .propagate txid decision] }

/-- A Python exception escaping a request handler. -/
inductive PyExc
  | nameError (name : String)
deriving DecidableEq, Repr

/-- Result of the coordinator's `three_pc`: the transaction record as it
stands when the run dies, the effect trace performed before the crash, and
the exception that terminates the run. -/
structure ThreePCRun where
  record : CRec
  events : List CEvent
  exc : PyExc
deriving DecidableEq, Repr

/-- `three_pc` from coordinator.py, embedded with its crash: the function
calls `log(...)` (lines 159/165/177/198/202/217 of the source), but no
`log` is defined or imported anywhere in the module, so the first `log`
call raises `NameError`; inside the Phase-1 `try` the `except` handler
itself calls `log` again, re-raising it uncaught.  With a non-empty
participant list the run therefore dies on the first CanCommit iteration:
the record is created in state `CAN_COMMIT_SENT` with no decision, the
only WAL line is `START_3PC`, one `/can_commit` POST is sent to the first
participant (its reply is read into a local dict and then lost, so it is
not a parameter here), and nothing is decided, decision-logged or
propagated.  With an empty participant list both phase loops are skipped,
the vacuous decision COMMIT is recorded and WAL-logged, and the final
`log` call crashes before `propagate_decision` and before returning. -/
def three_pc (txid : String) (op : Op) (participants : List String) :
    ThreePCRun :=
  match participants with
  | [] =>
      { record :=
          { protocol := "3PC", state := "COMMIT_SENT", op := op,
            votes := [], votes_can_commit := [], precommit_ok := [],
            decision := some "COMMIT", participants := [] },
        events :=
          [.wal_append (.start3pc txid op),
           .wal_append (.decisionAfterPreCommit txid "COMMIT")],
        exc := .nameError "log" }
  | _ :: _ =>
      { record :=
          { protocol := "3PC", state := "CAN_COMMIT_SENT", op := op,
            votes := [], votes_can_commit := [], precommit_ok := [],
            decision := none, participants := participants },
        events := [.wal_append (.start3pc txid op)],
        exc := .nameError "log" }

/-- One line of `wal_replay` from coordinator.py: look the txid up in the
in-memory table and, only when a record exists and has no decision yet,
set its decision and move it to `{decision}_SENT`.  A missing record is
left alone — no record is ever created. -/
def replay_line (tx : List (String × CRec)) (line : String × String) :
    List (String × CRec) :=
  match dictGet tx line.1 with
  | some rec =>
      if rec.decision = none then
        dictSet tx line.1
          { rec with decision := some line.2, state := line.2 ++ "_SENT" }
      else tx
  | none => tx

/-- `wal_replay` from coordinator.py: fold every parsed WAL line over the
in-memory transaction table (empty at startup). -/
def wal_replay (lines : List (String × String))
    (tx : List (String × CRec)) : List (String × CRec) :=
  lines.foldl replay_line tx

end Coordinator


/-! Lemmas for the JSON serialization round-trip. -/

theorem dictGet_dictSet_self {α : Type} (m : List (String × α)) (k : String)
    (v : α) : dictGet (dictSet m k v) k = some v := by
  induction m with
  | nil => simp [dictSet, dictGet]
  | cons p rest ih =>
      obtain ⟨a, b⟩ := p
      by_cases hp : a = k
      · simp [dictSet, dictGet, hp]
      · simp [dictSet, dictGet, hp, ih]

theorem dictSet_idem {α : Type} (m : List (String × α)) (k : String)
    (v : α) : dictSet (dictSet m k v) k v = dictSet m k v := by
  induction m with
  | nil => simp [dictSet]
  | cons p rest ih =>
      obtain ⟨a, b⟩ := p
      by_cases hp : a = k
      · simp [dictSet, hp]
      · simp [dictSet, hp, ih]

/-! Claim theorems. -/

/-- Claim C6: applying the same SET operation to the key-value store twice
yields the same store contents as applying it once, for every key, value
and starting store. -/
theorem apply_op_set_idempotent (kv : List (String × String))
    (k v : String) :
    Participant.apply_op (Participant.apply_op kv ⟨"SET", k, v⟩)
        ⟨"SET", k, v⟩ =
      Participant.apply_op kv ⟨"SET", k, v⟩ := by
  have hset : pyUpper "SET" = "SET" := by decide
  simp [Participant.apply_op, hset, dictSet_idem]

/-- Claim C3: the coordinator's `wal_replay` run on a fresh process, whose
in-memory transaction table starts empty, never creates a record — for
every WAL it leaves the table empty, so a logged decision is NOT rebuilt
(the replay loop only updates records that already exist in memory). -/
theorem coord_wal_replay_noop_on_empty (ws : List Coordinator.CWal) :
    Coordinator.wal_replay (ws.map Coordinator.cwalParse) [] = [] := by
  induction ws with
  | nil => rfl
  | cons w rest ih =>
      have hstep : Coordinator.replay_line [] (Coordinator.cwalParse w) = [] := by
        simp [Coordinator.replay_line, dictGet]
      simpa [Coordinator.wal_replay, hstep] using ih

/-- Claim C4 counterexample: on a concrete default 2PC run (one
participant voting YES), the first effect after computing the decision is
a fixed 15-second sleep, not a zero delay — there is no configuration
hook and the default is not zero. -/
theorem two_pc_default_delay_not_zero :
    (Coordinator.two_pc "T1" ⟨"SET", "x", "5"⟩ ["P1"]
        (fun _ => some "YES")).events.head? =
      some (.sleep 15) ∧ (15 : Nat) ≠ 0 :=
  ⟨rfl, by decide⟩

/-- Claim C4 (amended): in every 2PC run the coordinator inserts an
unconditional fixed 15-second sleep between computing the decision and
appending the decision to the WAL; the delay is a hard-coded constant, not
a configurable hook defaulting to zero. -/
theorem two_pc_sleep_fifteen_before_log (txid : String) (op : Op)
    (participants : List String) (reply : String → Option String) :
    Coordinator.two_pc_sleep_secs = 15 ∧
    (Coordinator.two_pc txid op participants reply).events =
      [.sleep Coordinator.two_pc_sleep_secs,
       .wal_append (.decision txid
         (Coordinator.two_pc txid op participants reply).decision),
       .propagate txid
         (Coordinator.two_pc txid op participants reply).decision] :=
  ⟨rfl, rfl⟩

/-- Claim C2 counterexample: a participant record already in the terminal
state COMMITTED is moved out of it by a subsequent `/abort` request, so a
terminal state is not stable under all five operations. -/
theorem terminal_abort_counterexample :
    Option.map Participant.PRec.state
        (dictGet (Participant.handle_abort
            ⟨[("x", "5")],
             [("T1", ⟨.COMMITTED, ⟨"SET", "x", "5"⟩⟩)]⟩ "T1").node.tx
          "T1") = some .ABORTED ∧
      Participant.PState.ABORTED ≠ Participant.PState.COMMITTED :=
  ⟨by decide, by decide⟩

/-- Claim C2 (amended): once a participant record is in a terminal state
(COMMITTED or ABORTED), a subsequent commit or precommit leaves the node
state untouched (both are rejected as conflicts), and an abort leaves an
ABORTED record in state ABORTED; however an abort moves a COMMITTED record
to ABORTED and a repeated prepare/can_commit overwrites the record
unconditionally, so terminal states are not stable under those. -/
theorem terminal_commit_precommit_stable (s : Participant.PNode)
    (txid : String) (rec : Participant.PRec)
    (hrec : dictGet s.tx (pyStrip txid) = some rec)
    (hterm : rec.state = .COMMITTED ∨ rec.state = .ABORTED) :
    (Participant.handle_commit s txid).node = s ∧
    (Participant.handle_precommit s txid).node = s ∧
    (rec.state = .ABORTED →
      Option.map Participant.PRec.state
        (dictGet (Participant.handle_abort s txid).node.tx (pyStrip txid)) =
        some .ABORTED) := by
  by_cases he : pyStrip txid = ""
  · refine ⟨?_, ?_, ?_⟩
    · simp [Participant.handle_commit, he]
    · simp [Participant.handle_precommit, he]
    · intro hab
      rw [he] at hrec
      simp [Participant.handle_abort, he]
      exact ⟨rec, hrec, hab⟩
  · have hcomm :
        ¬ (rec.state = Participant.PState.READY ∨
           rec.state = Participant.PState.PRECOMMIT) := by
      rcases hterm with h | h <;> simp [h]
    have hready : ¬ rec.state = Participant.PState.READY := by
      rcases hterm with h | h <;> simp [h]
    refine ⟨?_, ?_, ?_⟩
    · simp [Participant.handle_commit, he, hrec, hcomm]
    · simp [Participant.handle_precommit, he, hrec, hready]
    · intro hab
      simp [Participant.handle_abort, he, hrec, dictGet_dictSet_self]

/-- The SET operation used by the concrete witnesses. -/
def wOp : Op := ⟨"SET", "x", "5"⟩

/-- A concrete participant state holding one COMMITTED transaction. -/
def wNode : Participant.PNode := ⟨[("x", "5")], [("T1", ⟨.COMMITTED, wOp⟩)]⟩

/-- The COMMITTED record stored in `wNode`. -/
def wRec : Participant.PRec := ⟨.COMMITTED, wOp⟩

/-- A concrete participant state holding one READY transaction. -/
def wReady : Participant.PNode := ⟨[], [("T1", ⟨.READY, wOp⟩)]⟩

/-- Witness for the amended Claim C2 at a concrete COMMITTED record. -/
theorem terminal_commit_precommit_stable_witness :
    (dictGet wNode.tx (pyStrip "T1") = some wRec ∧
      (wRec.state = .COMMITTED ∨ wRec.state = .ABORTED)) ∧
    ((Participant.handle_commit wNode "T1").node = wNode ∧
     (Participant.handle_precommit wNode "T1").node = wNode ∧
     (wRec.state = .ABORTED →
       Option.map Participant.PRec.state
         (dictGet (Participant.handle_abort wNode "T1").node.tx
           (pyStrip "T1")) = some .ABORTED)) :=
  ⟨⟨by decide, by decide⟩,
   terminal_commit_precommit_stable wNode "T1" wRec (by decide) (by decide)⟩

/-- Claim C7: commit succeeds, applies the transaction's op to the store
and moves the record to COMMITTED exactly when the record exists in state
READY or PRECOMMIT; otherwise it answers with a 409 conflict error and
leaves the node state (records and key-value store) unchanged. -/
theorem commit_ready_or_precommit (s : Participant.PNode) (txid : String)
    (h : pyStrip txid ≠ "") :
    ((∃ rec, dictGet s.tx (pyStrip txid) = some rec ∧
        (rec.state = .READY ∨ rec.state = .PRECOMMIT)) →
      ∃ rec, dictGet s.tx (pyStrip txid) = some rec ∧
        (Participant.handle_commit s txid).node.kv =
          Participant.apply_op s.kv rec.op ∧
        Option.map Participant.PRec.state
          (dictGet (Participant.handle_commit s txid).node.tx
            (pyStrip txid)) = some .COMMITTED ∧
        (Participant.handle_commit s txid).resp =
          .done (pyStrip txid) .COMMITTED) ∧
    ((¬ ∃ rec, dictGet s.tx (pyStrip txid) = some rec ∧
        (rec.state = .READY ∨ rec.state = .PRECOMMIT)) →
      (Participant.handle_commit s txid).node = s ∧
      (Participant.handle_commit s txid).resp =
        .err 409 "commit requires READY/PRECOMMIT") := by
  constructor
  · rintro ⟨rec, hrec, hst⟩
    refine ⟨rec, hrec, ?_⟩
    simp [Participant.handle_commit, h, hrec, hst, dictGet_dictSet_self]
  · intro hno
    cases hrec : dictGet s.tx (pyStrip txid) with
    | none => simp [Participant.handle_commit, h, hrec]
    | some rec =>
        have hst :
            ¬ (rec.state = Participant.PState.READY ∨
               rec.state = Participant.PState.PRECOMMIT) :=
          fun hc => hno ⟨rec, hrec, hc⟩
        simp [Participant.handle_commit, h, hrec, hst]

/-- Witness for Claim C7 at a concrete READY record. -/
theorem commit_ready_or_precommit_witness :
    pyStrip "T1" ≠ "" ∧
    (((∃ rec, dictGet wReady.tx (pyStrip "T1") = some rec ∧
        (rec.state = .READY ∨ rec.state = .PRECOMMIT)) →
      ∃ rec, dictGet wReady.tx (pyStrip "T1") = some rec ∧
        (Participant.handle_commit wReady "T1").node.kv =
          Participant.apply_op wReady.kv rec.op ∧
        Option.map Participant.PRec.state
          (dictGet (Participant.handle_commit wReady "T1").node.tx
            (pyStrip "T1")) = some .COMMITTED ∧
        (Participant.handle_commit wReady "T1").resp =
          .done (pyStrip "T1") .COMMITTED) ∧
    ((¬ ∃ rec, dictGet wReady.tx (pyStrip "T1") = some rec ∧
        (rec.state = .READY ∨ rec.state = .PRECOMMIT)) →
      (Participant.handle_commit wReady "T1").node = wReady ∧
      (Participant.handle_commit wReady "T1").resp =
        .err 409 "commit requires READY/PRECOMMIT")) :=
  ⟨by decide, commit_ready_or_precommit wReady "T1" (by decide)⟩

/-- Claim C8: abort on an unknown txid fails with the not-found error
"no such tx" — distinct from the conflict errors that commit and precommit
use — appends nothing to the WAL and mutates nothing; on an existing
record it transitions the record to ABORTED. -/
theorem abort_not_found_or_transition (s : Participant.PNode)
    (txid : String) (h : pyStrip txid ≠ "") :
    (dictGet s.tx (pyStrip txid) = none →
      (Participant.handle_abort s txid).node = s ∧
      (Participant.handle_abort s txid).wal = [] ∧
      (Participant.handle_abort s txid).resp = .err 409 "no such tx" ∧
      Participant.PResp.err 409 "no such tx" ≠
        .err 409 "commit requires READY/PRECOMMIT" ∧
      Participant.PResp.err 409 "no such tx" ≠
        .err 409 "precommit requires READY state") ∧
    (∀ rec, dictGet s.tx (pyStrip txid) = some rec →
      Option.map Participant.PRec.state
        (dictGet (Participant.handle_abort s txid).node.tx (pyStrip txid)) =
        some .ABORTED ∧
      (Participant.handle_abort s txid).resp =
        .done (pyStrip txid) .ABORTED) := by
  constructor
  · intro hnone
    refine ⟨?_, ?_, ?_, by decide, by decide⟩ <;>
      simp [Participant.handle_abort, h, hnone]
  · intro rec hrec
    simp [Participant.handle_abort, h, hrec, dictGet_dictSet_self]

/-- Witness for Claim C8 on the fresh participant (no record exists). -/
theorem abort_not_found_or_transition_witness :
    pyStrip "T1" ≠ "" ∧
    ((dictGet Participant.initNode.tx (pyStrip "T1") = none →
      (Participant.handle_abort Participant.initNode "T1").node =
        Participant.initNode ∧
      (Participant.handle_abort Participant.initNode "T1").wal = [] ∧
      (Participant.handle_abort Participant.initNode "T1").resp =
        .err 409 "no such tx" ∧
      Participant.PResp.err 409 "no such tx" ≠
        .err 409 "commit requires READY/PRECOMMIT" ∧
      Participant.PResp.err 409 "no such tx" ≠
        .err 409 "precommit requires READY state") ∧
    (∀ rec, dictGet Participant.initNode.tx (pyStrip "T1") = some rec →
      Option.map Participant.PRec.state
        (dictGet (Participant.handle_abort Participant.initNode
            "T1").node.tx (pyStrip "T1")) = some .ABORTED ∧
      (Participant.handle_abort Participant.initNode "T1").resp =
        .done (pyStrip "T1") .ABORTED)) :=
  ⟨by decide, abort_not_found_or_transition Participant.initNode "T1"
    (by decide)⟩

/-- Claim C9: prepare and can_commit vote YES iff the op's type is SET
(the handler upper-cases it) and the op's key is non-empty after stripping
whitespace; the stored record state is READY on a YES vote and ABORTED
otherwise, and the reply carries that vote together with the state. -/
theorem prepare_vote_validation (s : Participant.PNode) (txid : String)
    (op : Op) (h : pyStrip txid ≠ "") :
    (Participant.validate_op op = true ↔
      (pyUpper op.type = "SET" ∧ pyStrip op.key ≠ "")) ∧
    (Participant.handle_prepare s txid op).resp =
      .vote (if Participant.validate_op op then "YES" else "NO")
        (if Participant.validate_op op then .READY else .ABORTED) ∧
    dictGet (Participant.handle_prepare s txid op).node.tx (pyStrip txid) =
      some ⟨if Participant.validate_op op then .READY else .ABORTED, op⟩ ∧
    (Participant.handle_can_commit s txid op).resp =
      .vote (if Participant.validate_op op then "YES" else "NO")
        (if Participant.validate_op op then .READY else .ABORTED) ∧
    dictGet (Participant.handle_can_commit s txid op).node.tx
        (pyStrip txid) =
      some ⟨if Participant.validate_op op then .READY else .ABORTED, op⟩ := by
  refine ⟨?_, ?_, ?_, ?_, ?_⟩
  · unfold Participant.validate_op
    by_cases h1 : pyUpper op.type = "SET" <;>
      by_cases h2 : pyStrip op.key = "" <;> simp [h1, h2]
  all_goals
    cases hv : Participant.validate_op op <;>
      simp [Participant.handle_prepare, Participant.handle_can_commit, h,
        hv, dictGet_dictSet_self]

/-- Witness for Claim C9 at a concrete valid SET operation. -/
theorem prepare_vote_validation_witness :
    pyStrip "T1" ≠ "" ∧
    ((Participant.validate_op wOp = true ↔
      (pyUpper wOp.type = "SET" ∧ pyStrip wOp.key ≠ "")) ∧
    (Participant.handle_prepare Participant.initNode "T1" wOp).resp =
      .vote (if Participant.validate_op wOp then "YES" else "NO")
        (if Participant.validate_op wOp then .READY else .ABORTED) ∧
    dictGet (Participant.handle_prepare Participant.initNode "T1"
        wOp).node.tx (pyStrip "T1") =
      some ⟨if Participant.validate_op wOp then .READY else .ABORTED, wOp⟩ ∧
    (Participant.handle_can_commit Participant.initNode "T1" wOp).resp =
      .vote (if Participant.validate_op wOp then "YES" else "NO")
        (if Participant.validate_op wOp then .READY else .ABORTED) ∧
    dictGet (Participant.handle_can_commit Participant.initNode "T1"
        wOp).node.tx (pyStrip "T1") =
      some ⟨if Participant.validate_op wOp then .READY else .ABORTED,
        wOp⟩) :=
  ⟨by decide, prepare_vote_validation Participant.initNode "T1" wOp
    (by decide)⟩

/-- Claim C10: a repeated prepare or can_commit for a txid that already
has a record unconditionally overwrites that record — whatever its prior
state, terminal states included — with state READY (valid op) or ABORTED
(invalid op) and the new op, and answers with a vote, never a conflict
error. -/
theorem prepare_overwrites_any_state (s : Participant.PNode)
    (txid : String) (op : Op) (h : pyStrip txid ≠ "") :
    dictGet (Participant.handle_prepare s txid op).node.tx (pyStrip txid) =
      some ⟨if Participant.validate_op op then .READY else .ABORTED, op⟩ ∧
    (∃ v st, (Participant.handle_prepare s txid op).resp = .vote v st) ∧
    dictGet (Participant.handle_can_commit s txid op).node.tx
        (pyStrip txid) =
      some ⟨if Participant.validate_op op then .READY else .ABORTED, op⟩ ∧
    (∃ v st, (Participant.handle_can_commit s txid op).resp =
      .vote v st) := by
  cases hv : Participant.validate_op op <;>
    simp [Participant.handle_prepare, Participant.handle_can_commit, h, hv,
      dictGet_dictSet_self]

/-- Witness for Claim C10: the overwritten record previously was in the
terminal state COMMITTED and is replaced without a conflict error. -/
theorem prepare_overwrites_any_state_witness :
    pyStrip "T1" ≠ "" ∧
    (dictGet (Participant.handle_prepare wNode "T1" wOp).node.tx
        (pyStrip "T1") =
      some ⟨if Participant.validate_op wOp then .READY else .ABORTED,
        wOp⟩ ∧
    (∃ v st, (Participant.handle_prepare wNode "T1" wOp).resp =
      .vote v st) ∧
    dictGet (Participant.handle_can_commit wNode "T1" wOp).node.tx
        (pyStrip "T1") =
      some ⟨if Participant.validate_op wOp then .READY else .ABORTED,
        wOp⟩ ∧
    (∃ v st, (Participant.handle_can_commit wNode "T1" wOp).resp =
      .vote v st)) :=
  ⟨by decide, prepare_overwrites_any_state wNode "T1" wOp (by decide)⟩

/-- The coordinator's aggregate first-phase test, shared by `two_pc` and
`three_pc`: the vote list is all-YES exactly when every contacted
participant's extracted vote is YES. -/
theorem votes_all_yes_iff (participants : List String)
    (f : String → Option String) :
    ((participants.map fun p => (p, Coordinator.voteOf (f p))).all
        fun pv => pv.2 = "YES") = true ↔
      ∀ p ∈ participants, Coordinator.voteOf (f p) = "YES" := by
  simp [List.all_map, Function.comp]

/-- Claim C1: the 2PC half of the claim holds of the code: the decision
is COMMIT iff every contacted participant's prepare vote is YES, a reply
without a vote field — in particular the error reply that `post_json`
substitutes on a timeout or transport failure — is read as the vote NO,
and any non-YES vote forces ABORT.  The 3PC half fails in the code: every
`three_pc` run raises `NameError` from the undefined `log()` before any
decision exists, so at the failing input (one participant, no matter how
it votes) the record carries no decision and the only WAL line is
`START_3PC` — a NO CanCommit vote does not force an ABORT decision, it
kills the request. -/
theorem two_pc_unanimity_and_three_pc_crash (txid : String) (op : Op)
    (participants : List String) (reply : String → Option String) :
    ((Coordinator.two_pc txid op participants reply).decision = "COMMIT" ↔
      ∀ p ∈ participants, Coordinator.voteOf (reply p) = "YES") ∧
    ((∃ p ∈ participants, Coordinator.voteOf (reply p) ≠ "YES") →
      (Coordinator.two_pc txid op participants reply).decision =
        "ABORT") ∧
    Coordinator.voteOf none = "NO" ∧
    (Coordinator.three_pc "T1" ⟨"SET", "x", "5"⟩ ["P1"]).exc =
      .nameError "log" ∧
    (Coordinator.three_pc "T1" ⟨"SET", "x", "5"⟩ ["P1"]).record.decision =
      none ∧
    (Coordinator.three_pc "T1" ⟨"SET", "x", "5"⟩ ["P1"]).events =
      [.wal_append (.start3pc "T1" ⟨"SET", "x", "5"⟩)] ∧
    (∀ ps : List String, ps ≠ [] →
      (Coordinator.three_pc txid op ps).exc = .nameError "log" ∧
      (Coordinator.three_pc txid op ps).record.decision = none ∧
      (Coordinator.three_pc txid op ps).events =
        [.wal_append (.start3pc txid op)]) := by
  have hne : ("ABORT" : String) ≠ "COMMIT" := by decide
  refine ⟨?_, ?_, by decide, rfl, rfl, rfl, ?_⟩
  · cases hb : ((participants.map fun p =>
        (p, Coordinator.voteOf (reply p))).all fun pv => pv.2 = "YES") with
    | true =>
        simp [Coordinator.two_pc, hb]
        exact (votes_all_yes_iff participants reply).mp hb
    | false =>
        have hnall : ¬ ∀ p ∈ participants,
            Coordinator.voteOf (reply p) = "YES" := by
          intro hc
          rw [(votes_all_yes_iff participants reply).mpr hc] at hb
          cases hb
        simp [Coordinator.two_pc, hb, hne, hnall]
  · rintro ⟨p, hp, hpne⟩
    cases hb : ((participants.map fun q =>
        (q, Coordinator.voteOf (reply q))).all fun pv => pv.2 = "YES") with
    | true =>
        exact absurd ((votes_all_yes_iff participants reply).mp hb p hp)
          hpne
    | false => simp [Coordinator.two_pc, hb]
  · intro ps hps
    match ps, hps with
    | p :: rest, _ => exact ⟨rfl, rfl, rfl⟩

end Lab4

namespace Lab4

end Lab4

namespace Lab4

end Lab4

namespace Lab4

end Lab4

namespace Lab4
namespace Participant

end Participant

end Lab4

namespace Lab4
namespace Participant

end Participant
end Lab4

namespace Lab4

end Lab4
